import Mathlib

/-!
Verification of the MADDPG traffic-signal control environment.

Shallow embedding of the repository's Python sources:
 - `src/src/env.py`   — class `TrafficEnv` (reset, get_state, apply_action,
   step, get_reward, get_done);
 - `src/src/main.py`  — the training coordinator's episode loop and its
   step budget `max_step_per_ep`;
 - `src/src/utils.py` — `get_average_travel_time`;
 - `src/scenario/gen0611/gen.py` — the generated 8-phase traffic-light
   program (`generate_traffic_light_programs`).

The SUMO simulator is modelled as an abstract snapshot (`World`) providing
exactly the traci queries the environment reads.  Python exceptions are
modelled by an error type returned through `Except`; Python's `None`-valued
attributes before `reset` are modelled with `Option` fields.
-/

/-- Snapshot of the SUMO simulator as observed through the traci queries the
environment uses: the ordered list of traffic-light IDs, the raw
controlled-lanes list per traffic light (one entry per controlled link, so a
lane may occur several times), per-lane vehicle and halting counts, the
current phase index per traffic light, and `getMinExpectedNumber`. -/
structure World where
  tlIDs : List String
  controlledLanes : String → List String
  vehicleNumber : String → Nat
  haltingNumber : String → Nat
  phase : String → Nat
  minExpectedNumber : Nat

/-- Kinds of Python exceptions the embedded code can raise, plus the
spec-level `NotInitialized` error (which the code never raises; it is
present so that statements can distinguish it from the errors the code
actually produces). -/
inductive PyError where
  | valueError
  | typeError
  | indexError
  | attributeError
  | notInitialized
deriving DecidableEq

/-- Mutable fields of `TrafficEnv` (env.py `__init__` and `reset`).  Fields
that Python initialises to `None` (or, for `phase_mapping`, does not define
at all before `reset`) are `Option`-valued. -/
structure TrafficEnv where
  time : Option Nat
  decision_time : Nat
  n_intersections : Option Nat
  n_phase : Option Nat
  max_lanes : Option Nat
  phase_mapping : Option (List Nat)
deriving DecidableEq

/-- `TrafficEnv.__init__`: everything unset except `decision_time = 10`. -/
def TrafficEnv.init : TrafficEnv :=
  { time := none, decision_time := 10, n_intersections := none,
    n_phase := none, max_lanes := none, phase_mapping := none }

/-- Python list indexing `xs[i]`: a negative index counts from the end;
`none` models an `IndexError`. -/
def pyIndex {α : Type} (xs : List α) (i : Int) : Option α :=
  let j : Int := if i < 0 then i + xs.length else i
  if 0 ≤ j then xs.get? j.toNat else none

/-- env.py: `mapped_phase = 0 if current_phase in [0, 1] else 1`
(get_state line 60) and the identical `current_direction` computation in
`apply_action` line 81. -/
def phaseToDirection (p : Nat) : Nat :=
  if p = 0 ∨ p = 1 then 0 else 1

/-- Decision-level direction the code derives from an intersection's current
simulator phase, as an integer (compared against the requested action). -/
def currentDirection (w : World) (tl : String) : Int :=
  (phaseToDirection (w.phase tl) : Int)

/-- get_state's inner loop: per controlled-lane entry append the lane's
vehicle count then its halting count (env.py lines 52-54). -/
def laneObsLoop (w : World) : List String → List Int
  | [] => []
  | lane :: rest =>
    (w.vehicleNumber lane : Int) :: (w.haltingNumber lane : Int) :: laneObsLoop w rest

/-- get_state's padding loop `while len(observation) < max_lanes * 2:
observation.extend([0, 0])` (env.py lines 56-57), written with a fuel
argument; each iteration grows the list by two, so fuel equal to the target
length always suffices for the loop to reach its exit condition. -/
def padLoop : Nat → List Int → Nat → List Int
  | 0, obs, _ => obs
  | fuel + 1, obs, target =>
    if obs.length < target then padLoop fuel (obs ++ [0, 0]) target else obs

/-- env.py reset lines 30-33: maximum over all traffic lights of the number
of distinct controlled lanes (`len(set(getControlledLanes(tl)))`). -/
def maxLanesOf (w : World) : Nat :=
  (w.tlIDs.map (fun tl => (w.controlledLanes tl).dedup.length)).foldl Nat.max 0

/-- env.py `get_state` (lines 47-68): per intersection, the raw per-lane
(vehicle, halted) pairs, padded with zero pairs up to `max_lanes * 2`
entries, followed by a one-hot vector of length `n_phase` marking the
direction derived from the current phase.  Returns `none` when the latched
fields are still unset (before `reset` the Python code cannot produce a
state either). -/
def TrafficEnv.get_state (env : TrafficEnv) (w : World) : Option (List (List Int)) :=
  match env.max_lanes, env.n_phase with
  | some maxL, some nP =>
    some (w.tlIDs.map (fun tl =>
      let observation := laneObsLoop w (w.controlledLanes tl)
      let padded := padLoop (maxL * 2) observation (maxL * 2)
      let phase := (List.replicate nP (0 : Int)).set (phaseToDirection (w.phase tl)) 1
      padded ++ phase))
  | _, _ => none

/-- apply_action's per-intersection loop (env.py lines 74-84): look up the
requested action by index, look up its entry phase in `phase_mapping` with
Python indexing, and emit a `setPhase` instruction exactly when the
requested direction differs from the one derived from the current phase. -/
def applyLoop (pm : List Nat) (w : World) (actions : List Int) :
    Nat → List String → Except PyError (List (String × Nat))
  | _, [] => Except.ok []
  | i, tl :: rest =>
    match actions.get? i with
    | none => Except.error PyError.indexError
    | some a =>
      match pyIndex pm a with
      | none => Except.error PyError.indexError
      | some desired =>
        match applyLoop pm w actions (i + 1) rest with
        | Except.error e => Except.error e
        | Except.ok instrs =>
          if a ≠ currentDirection w tl then Except.ok ((tl, desired) :: instrs)
          else Except.ok instrs

/-- env.py `apply_action` (lines 70-84).  The length guard
`len(actions) != self.n_intersections` raises `ValueError`; before `reset`
the field is `None` and the Python comparison `int != None` is always true,
so the same `ValueError` fires.  The result is the ordered list of
`setPhase(tl, phase)` instructions issued to the simulator. -/
def TrafficEnv.apply_action (env : TrafficEnv) (w : World) (actions : List Int) :
    Except PyError (List (String × Nat)) :=
  if (match env.n_intersections with
      | some n => actions.length == n
      | none => false) then
    match env.phase_mapping with
    | some pm => applyLoop pm w actions 0 w.tlIDs
    | none => Except.error PyError.attributeError
  else Except.error PyError.valueError

/-- get_reward's inner accumulation `reward[i] += getLastStepHaltingNumber(lane)`
over one intersection's controlled lanes (env.py lines 100-101). -/
def sumHaltedLoop (w : World) : List String → Int → Int
  | [], acc => acc
  | lane :: rest, acc => sumHaltedLoop w rest (acc + (w.haltingNumber lane : Int))

/-- env.py `get_reward` (lines 97-104): a list of `n_intersections` slots,
slot `i` accumulating the halting counts of intersection `i`'s raw
controlled lanes, then negated elementwise (`reward = -np.array(reward)`).
Before `reset`, `range(None)` raises `TypeError`; a traffic-light index
beyond the latched count would hit `reward[i]` out of range
(`IndexError`). -/
def TrafficEnv.get_reward (env : TrafficEnv) (w : World) : Except PyError (List Int) :=
  match env.n_intersections with
  | none => Except.error PyError.typeError
  | some n =>
    if w.tlIDs.length ≤ n then
      Except.ok (((List.range n).map (fun i =>
        match w.tlIDs.get? i with
        | some tl => sumHaltedLoop w (w.controlledLanes tl) 0
        | none => 0)).map (fun x => -x))
    else Except.error PyError.indexError

/-- env.py `get_done` (lines 106-107). -/
def get_done (w : World) : Bool :=
  w.minExpectedNumber == 0

/-- env.py `step` (lines 86-95): apply the joint action against the current
world `w`, advance the simulator `decision_time` ticks (the post-advance
snapshot is `w'`, and `self.time` grows by `decision_time`), then read
state, reward and done from the new snapshot. -/
def TrafficEnv.step (env : TrafficEnv) (w w' : World) (actions : List Int) :
    Except PyError (TrafficEnv × List (List Int) × List Int × Bool) :=
  match env.apply_action w actions with
  | Except.error e => Except.error e
  | Except.ok _ =>
    let env2 := { env with time := env.time.map (· + env.decision_time) }
    match env2.get_state w' with
    | none => Except.error PyError.typeError
    | some s =>
      match env2.get_reward w' with
      | Except.error e => Except.error e
      | Except.ok r => Except.ok (env2, s, r, get_done w')

/-- env.py `reset` (lines 21-45): latch the intersection count, the
deduplicated maximum lane count, `n_phase = 2` and `phase_mapping = [0, 2]`,
then return `get_state` on the fresh snapshot.  With no traffic lights the
Python `max(...)` over an empty generator raises `ValueError`, modelled as
`none`. -/
def TrafficEnv.reset (env : TrafficEnv) (w : World) : Option (TrafficEnv × List (List Int)) :=
  match w.tlIDs with
  | [] => none
  | _ :: _ =>
    let env2 := { env with
      time := some 0,
      n_intersections := some w.tlIDs.length,
      max_lanes := some (maxLanesOf w),
      n_phase := some 2,
      phase_mapping := some [0, 2] }
    (env2.get_state w).map (fun s => (env2, s))

/-- The environment exactly as `reset` latches it from a snapshot (all
fields of `TrafficEnv.init` overwritten except `decision_time`). -/
def latchedEnv (w : World) : TrafficEnv :=
  { time := some 0, decision_time := 10,
    n_intersections := some w.tlIDs.length,
    n_phase := some 2,
    max_lanes := some (maxLanesOf w),
    phase_mapping := some [0, 2] }

/-- main.py line 31: `max_step_per_ep = 360`. -/
def max_step_per_ep : Nat := 360

/-- main.py episode loop (lines 59-86):
`step_count = 0; while not done and step_count <= max_step: step_count += 1;
... env.step ...; if done: break`, counting the `env.step` calls performed.
`doneSeq k` abstracts the `done` flag returned by the k-th `env.step`; the
remaining-iterations argument starts at `maxStep + 1` because the guard
admits every `step_count` from 0 through `maxStep` inclusive. -/
def loopAux (doneSeq : Nat → Bool) : Nat → Nat → Bool → Nat
  | 0, _, _ => 0
  | rem + 1, sc, d =>
    if d then 0 else 1 + loopAux doneSeq rem (sc + 1) (doneSeq (sc + 1))

/-- Number of `env.step` calls one episode of main.py's loop performs, given
the sequence of `done` flags the environment returns. -/
def episodeStepCalls (maxStep : Nat) (doneSeq : Nat → Bool) : Nat :=
  loopAux doneSeq (maxStep + 1) 0 false

/-- utils.py `get_average_travel_time` (lines 5-16): the tripinfo file is
reduced to the `duration` attribute of each child node of the XML root
(`none` when the attribute is absent, as `attrib.get` returns `None`).
Float64 values are modelled as rationals; pandas converts a missing value to
NaN and `mean()` skips NaNs and returns NaN on an empty column, so the mean
is taken over the present values and `none` models the NaN result. -/
def get_average_travel_time (nodes : List (Option ℚ)) : Option ℚ :=
  let vals := nodes.filterMap id
  if vals.length = 0 then none
  else some ((vals.foldl (fun acc x => acc + x) 0) / (vals.length : ℚ))

/-- scenario/gen0611/gen.py `generate_traffic_light_programs` (lines
296-344): the (duration, state) phases of the generated program, in order:
EW through+right, EW protected left, EW yellow, all-red, NS through+right,
NS protected left, NS yellow, all-red. -/
def gen0611Phases : List (Nat × String) :=
  [(30, "GGGrrrrrGGGrrrrr"),
   (10, "rrrGrrrrrrrGrrrr"),
   (4,  "yyyyrrrryyyyrrrr"),
   (2,  "rrrrrrrrrrrrrrrr"),
   (30, "rrrrGGGrrrrrGGGr"),
   (10, "rrrrrrrGrrrrrrrG"),
   (4,  "rrrryyyyrrrryyyy"),
   (2,  "rrrrrrrrrrrrrrrr")]

/-- Modelled from the spec: which direction's cycle each generated sub-phase
belongs to.  Per gen.py's program, phases 0-3 (East-West through, protected
left, yellow, and the following all-red clearance) form direction 0's cycle
and phases 4-7 the same sub-phases for direction 1. -/
def gen0611PhaseDirection (p : Nat) : Nat :=
  if p < 4 then 0 else 1

/-- Spec-level reading of the phase-machine transition rule: per
intersection in enumeration order, exactly one instruction to the requested
direction's entry phase (`phase_mapping[a]`, i.e. 0 for direction 0 and 2
for direction 1) when the request differs from the direction derived from
the current phase, and no instruction when it agrees. -/
def applySpecLoop (w : World) (actions : List Int) :
    Nat → List String → List (String × Nat)
  | _, [] => []
  | i, tl :: rest =>
    let tail := applySpecLoop w actions (i + 1) rest
    match actions.get? i with
    | some a =>
      if a = currentDirection w tl then tail
      else (tl, if a = 0 then 0 else 2) :: tail
    | none => tail

/-- Instruction list the transition rule of the spec prescribes for a joint
action. -/
def applySpec (w : World) (actions : List Int) : List (String × Nat) :=
  applySpecLoop w actions 0 w.tlIDs

/-- Reward slot of one intersection, as the environment reports it: `none`
when `get_reward` fails or the index is out of range. -/
def rewardAt (env : TrafficEnv) (w : World) (i : Nat) : Option Int :=
  match env.get_reward w with
  | Except.ok r => r.get? i
  | Except.error _ => none

/-- Concrete snapshot with a duplicated controlled-lane entry: intersection
`A` controls lane `l0` through two links, so its raw controlled-lanes list
is `[l0, l0]` while its deduplicated lane set has one element. -/
def W1 : World :=
  { tlIDs := ["A", "B"],
    controlledLanes := fun tl => if tl = "A" then ["l0", "l0"] else if tl = "B" then ["l1"] else [],
    vehicleNumber := fun _ => 0,
    haltingNumber := fun _ => 0,
    phase := fun _ => 0,
    minExpectedNumber := 1 }

/-- Concrete duplicate-free snapshot: two intersections with 1 and 2
controlled lanes, currently in phases 0 and 4. -/
def W2 : World :=
  { tlIDs := ["A", "B"],
    controlledLanes := fun tl => if tl = "A" then ["a1"] else if tl = "B" then ["b1", "b2"] else [],
    vehicleNumber := fun _ => 3,
    haltingNumber := fun _ => 1,
    phase := fun tl => if tl = "B" then 4 else 0,
    minExpectedNumber := 7 }

/-- Concrete one-intersection snapshot: one lane, 3 vehicles of which 1 is
halted, phase 0, vehicles still expected. -/
def W3 : World :=
  { tlIDs := ["A"],
    controlledLanes := fun tl => if tl = "A" then ["l0"] else [],
    vehicleNumber := fun _ => 3,
    haltingNumber := fun _ => 1,
    phase := fun _ => 0,
    minExpectedNumber := 5 }

/-- The snapshot `W3` after congestion grew: same topology and phase, but
now 2 halted vehicles on the lane. -/
def W4 : World :=
  { tlIDs := ["A"],
    controlledLanes := fun tl => if tl = "A" then ["l0"] else [],
    vehicleNumber := fun _ => 3,
    haltingNumber := fun _ => 2,
    phase := fun _ => 0,
    minExpectedNumber := 5 }

/-- Environment latched by `reset` on `W2`. -/
def envW2 : TrafficEnv := latchedEnv W2

/-- Environment latched by `reset` on `W3`. -/
def envW3 : TrafficEnv := latchedEnv W3

lemma laneObsLoop_length (w : World) :
    ∀ lanes : List String, (laneObsLoop w lanes).length = 2 * lanes.length := by
  intro lanes
  induction lanes with
  | nil => rfl
  | cons lane rest ih => simp [laneObsLoop, ih]; omega

lemma padLoop_length :
    ∀ (fuel : Nat) (obs : List Int) (target : Nat),
      obs.length % 2 = 0 → target % 2 = 0 → target ≤ obs.length + 2 * fuel →
      (padLoop fuel obs target).length = Nat.max obs.length target := by
  intro fuel
  induction fuel with
  | zero =>
    intro obs target _ _ hb
    simp only [padLoop, Nat.max_def]
    split <;> omega
  | succ f ih =>
    intro obs target hev htev hb
    simp only [padLoop]
    split
    · rename_i hlt
      rw [ih (obs ++ [0, 0]) target (by simp; omega) htev (by simp; omega)]
      simp only [List.length_append, List.length_cons, List.length_nil, Nat.max_def]
      split <;> split <;> omega
    · simp only [Nat.max_def]
      split <;> omega

lemma pyIndex_pair_dom {α : Type} (x y : α) (a : Int) (h : a = 0 ∨ a = 1) :
    pyIndex [x, y] a = some (if a = 0 then x else y) := by
  rcases h with rfl | rfl <;> rfl

lemma pyIndex_pair_none {α : Type} (x y : α) (a : Int) (h : 2 ≤ a ∨ a ≤ -3) :
    pyIndex [x, y] a = none := by
  unfold pyIndex
  rcases h with h | h
  · rw [if_neg (by omega : ¬ a < 0), if_pos (by omega : (0 : Int) ≤ a)]
    apply List.get?_eq_none.mpr
    simp
    omega
  · rw [if_pos (by omega : a < 0)]
    rw [if_neg]
    simp only [List.length_cons, List.length_nil]
    omega

lemma init_reset (w : World) (hw : w.tlIDs ≠ []) :
    TrafficEnv.init.reset w =
      ((latchedEnv w).get_state w).map (fun s => (latchedEnv w, s)) := by
  unfold TrafficEnv.reset latchedEnv
  cases hlist : w.tlIDs with
  | nil => exact absurd hlist hw
  | cons a l => rfl

lemma init_reset_some (w : World) (env' : TrafficEnv) (s : List (List Int))
    (h : TrafficEnv.init.reset w = some (env', s)) :
    env' = latchedEnv w ∧ (latchedEnv w).get_state w = some s := by
  have hw : w.tlIDs ≠ [] := by
    intro hnil
    unfold TrafficEnv.reset at h
    rw [hnil] at h
    simp at h
  rw [init_reset w hw] at h
  cases hg : (latchedEnv w).get_state w with
  | none => rw [hg] at h; simp at h
  | some s0 =>
    rw [hg] at h
    simp only [Option.map_some', Option.some.injEq, Prod.mk.injEq] at h
    exact ⟨h.1.symm, by rw [h.2]⟩

lemma get_state_obs_length (env : TrafficEnv) (w : World) (maxL : Nat) (s : List (List Int))
    (hm : env.max_lanes = some maxL) (hp : env.n_phase = some 2)
    (hs : env.get_state w = some s) :
    ∀ i tl, w.tlIDs.get? i = some tl →
      (s.get? i).map List.length =
        some (2 * Nat.max (w.controlledLanes tl).length maxL + 2) := by
  intro i tl hi
  simp only [TrafficEnv.get_state, hm, hp, Option.some.injEq] at hs
  subst hs
  rw [List.get?_map, hi]
  simp only [Option.map_some', Option.some.injEq]
  rw [List.length_append, List.length_set, List.length_replicate]
  rw [padLoop_length (maxL * 2) _ (maxL * 2)
    (by rw [laneObsLoop_length]; omega) (by omega) (by omega)]
  rw [laneObsLoop_length]
  simp only [Nat.max_def]
  split <;> split <;> omega

lemma applyLoop_ok (w : World) (actions : List Int) :
    ∀ (tls : List String) (i : Nat),
      (∀ j, j < tls.length → ∃ a, actions.get? (i + j) = some a ∧ (a = 0 ∨ a = 1)) →
      applyLoop [0, 2] w actions i tls = Except.ok (applySpecLoop w actions i tls) := by
  intro tls
  induction tls with
  | nil => intro i _; rfl
  | cons tl rest ih =>
    intro i hact
    obtain ⟨a, ha, hdom⟩ := hact 0 (by simp)
    rw [Nat.add_zero] at ha
    have hrest : ∀ j, j < rest.length →
        ∃ a, actions.get? (i + 1 + j) = some a ∧ (a = 0 ∨ a = 1) := by
      intro j hj
      have h := hact (j + 1) (by simp; omega)
      rwa [show i + (j + 1) = i + 1 + j by omega] at h
    simp only [applyLoop, applySpecLoop, ha, pyIndex_pair_dom 0 2 a hdom, ih (i + 1) hrest]
    by_cases hc : a = currentDirection w tl
    · simp [hc]
    · simp [hc]

lemma applyLoop_err (w : World) (actions : List Int) :
    ∀ (tls : List String) (i : Nat),
      (∀ j, j < tls.length → ∃ a, actions.get? (i + j) = some a) →
      (∃ j, j < tls.length ∧ ∃ a, actions.get? (i + j) = some a ∧ pyIndex [0, 2] a = none) →
      applyLoop [0, 2] w actions i tls = Except.error PyError.indexError := by
  intro tls
  induction tls with
  | nil =>
    intro i _ hbad
    obtain ⟨j, hj, _⟩ := hbad
    simp at hj
  | cons tl rest ih =>
    intro i hall hbad
    obtain ⟨a, ha⟩ := hall 0 (by simp)
    rw [Nat.add_zero] at ha
    by_cases hnone : pyIndex ([0, 2] : List Nat) a = none
    · simp only [applyLoop, ha, hnone]
    · obtain ⟨d, hd⟩ := Option.ne_none_iff_exists'.mp hnone
      have hbad' : ∃ j, j < rest.length ∧
          ∃ b, actions.get? (i + 1 + j) = some b ∧ pyIndex ([0, 2] : List Nat) b = none := by
        obtain ⟨j, hj, b, hb, hbn⟩ := hbad
        cases j with
        | zero =>
          rw [Nat.add_zero, ha] at hb
          injection hb with hb
          subst hb
          exact absurd hbn hnone
        | succ j' =>
          refine ⟨j', by simp at hj; omega, b, ?_, hbn⟩
          rwa [show i + (j' + 1) = i + 1 + j' by omega] at hb
      have hall' : ∀ j, j < rest.length → ∃ b, actions.get? (i + 1 + j) = some b := by
        intro j hj
        have h := hall (j + 1) (by simp; omega)
        rwa [show i + (j + 1) = i + 1 + j by omega] at h
      simp only [applyLoop, ha, hd, ih (i + 1) hall' hbad']

lemma sumHaltedLoop_eq (w : World) :
    ∀ (lanes : List String) (acc : Int),
      sumHaltedLoop w lanes acc =
        acc + ((lanes.map (fun l => (w.haltingNumber l : Int))).sum) := by
  intro lanes
  induction lanes with
  | nil => intro acc; simp [sumHaltedLoop]
  | cons l rest ih =>
    intro acc
    simp only [sumHaltedLoop, ih, List.map_cons, List.sum_cons]
    ring

lemma mapsum_lt (f g : String → Nat) :
    ∀ lanes : List String,
      (∀ l ∈ lanes, f l ≤ g l) → (∃ l ∈ lanes, f l < g l) →
      ((lanes.map (fun l => (f l : Int))).sum) < ((lanes.map (fun l => (g l : Int))).sum) := by
  intro lanes
  induction lanes with
  | nil => intro _ h; simp at h
  | cons l rest ih =>
    intro hle hlt
    simp only [List.map_cons, List.sum_cons]
    have htl_le : ((rest.map (fun x => (f x : Int))).sum) ≤ ((rest.map (fun x => (g x : Int))).sum) :=
      List.sum_le_sum (fun x hx => by
        exact_mod_cast hle x (List.mem_cons_of_mem l hx))
    rcases hlt with ⟨l', hl', hflt⟩
    rcases List.mem_cons.mp hl' with rfl | hmem
    · exact add_lt_add_of_lt_of_le (by exact_mod_cast hflt) htl_le
    · have hhd : ((f l : Int)) ≤ ((g l : Int)) := by
        exact_mod_cast hle l (List.mem_cons_self l rest)
      have : ((rest.map (fun x => (f x : Int))).sum) < ((rest.map (fun x => (g x : Int))).sum) :=
        ih (fun x hx => hle x (List.mem_cons_of_mem l hx)) ⟨l', hmem, hflt⟩
      exact add_lt_add_of_le_of_lt hhd this

lemma get_reward_ok (env : TrafficEnv) (n : Nat) (w : World)
    (hn : env.n_intersections = some n) (hwle : w.tlIDs.length ≤ n) :
    env.get_reward w = Except.ok (((List.range n).map (fun i =>
      match w.tlIDs.get? i with
      | some tl => sumHaltedLoop w (w.controlledLanes tl) 0
      | none => 0)).map (fun x => -x)) := by
  unfold TrafficEnv.get_reward
  rw [hn]
  simp [hwle]

lemma rewardAt_eq (env : TrafficEnv) (n : Nat) (w : World) (i : Nat) (tl : String)
    (hn : env.n_intersections = some n) (hwle : w.tlIDs.length ≤ n)
    (hi : w.tlIDs.get? i = some tl) :
    rewardAt env w i =
      some (-(((w.controlledLanes tl).map (fun l => (w.haltingNumber l : Int))).sum)) := by
  have hin : i < n := by
    obtain ⟨hlt, -⟩ := List.get?_eq_some.mp hi
    omega
  have hi' : w.tlIDs[i]? = some tl := by
    rw [← List.get?_eq_getElem?]
    exact hi
  simp only [rewardAt, get_reward_ok env n w hn hwle]
  rw [List.get?_map, List.get?_map, List.get?_range hin]
  simp [hi', sumHaltedLoop_eq]

lemma loopAux_le (doneSeq : Nat → Bool) :
    ∀ (rem sc : Nat) (d : Bool), loopAux doneSeq rem sc d ≤ rem := by
  intro rem
  induction rem with
  | zero => intro sc d; simp [loopAux]
  | succ r ih =>
    intro sc d
    simp only [loopAux]
    split
    · omega
    · have h := ih (sc + 1) (doneSeq (sc + 1))
      omega

lemma loopAux_false :
    ∀ rem sc : Nat, loopAux (fun _ => false) rem sc false = rem := by
  intro rem
  induction rem with
  | zero => intro sc; rfl
  | succ r ih => intro sc; simp [loopAux, ih]; omega

lemma foldl_add_eq (l : List ℚ) :
    ∀ acc : ℚ, l.foldl (fun a x => a + x) acc = acc + l.sum := by
  induction l with
  | nil => intro acc; simp
  | cons x rest ih =>
    intro acc
    simp only [List.foldl_cons, ih, List.sum_cons]
    ring

/-- C1 (counterexample): the claim that every observation has length
`2*max_lanes + 2` fails on the code.  On snapshot `W1` intersection `A`'s
raw controlled-lanes list `[l0, l0]` repeats a lane, the latched `max_lanes`
(computed over deduplicated lane sets) is 1, and after `reset` the two
observations have lengths 6 and 4: the first differs from `2*1 + 2 = 4` and
from the second intersection's length. -/
theorem C1_obs_length_cex :
    (TrafficEnv.init.reset W1).map (fun p => (p.1.max_lanes, p.2.map List.length)) =
      some (some 1, [6, 4]) ∧
    (6 : Nat) ≠ 2 * 1 + 2 ∧ (6 : Nat) ≠ 4 :=
  ⟨by decide, by decide, by decide⟩

/-- C1 (amended): provided no intersection's raw controlled-lanes list is
longer than the `max_lanes` value latched at reset (in particular whenever
the lists carry no duplicates), every observation returned by `reset` and by
any later `get_state` on the latched environment — hence by every `step` —
has length exactly `2*max_lanes + 2`, identical across intersections and
across ticks. -/
theorem C1_obs_length_uniform (w w' : World) (env' : TrafficEnv) (s s' : List (List Int))
    (hreset : TrafficEnv.init.reset w = some (env', s))
    (hs' : env'.get_state w' = some s')
    (hl : ∀ tl ∈ w.tlIDs, (w.controlledLanes tl).length ≤ maxLanesOf w)
    (hl' : ∀ tl ∈ w'.tlIDs, (w'.controlledLanes tl).length ≤ maxLanesOf w) :
    (∀ i, i < w.tlIDs.length →
      (s.get? i).map List.length = some (2 * maxLanesOf w + 2)) ∧
    (∀ i, i < w'.tlIDs.length →
      (s'.get? i).map List.length = some (2 * maxLanesOf w + 2)) := by
  obtain ⟨henv, hs⟩ := init_reset_some w env' s hreset
  subst henv
  constructor
  · intro i hi
    obtain ⟨tl, htl⟩ : ∃ tl, w.tlIDs.get? i = some tl := ⟨_, List.get?_eq_get hi⟩
    have hmax : Nat.max (w.controlledLanes tl).length (maxLanesOf w) = maxLanesOf w :=
      Nat.max_eq_right (hl tl (List.get?_mem htl))
    rw [get_state_obs_length (latchedEnv w) w (maxLanesOf w) s rfl rfl hs i tl htl, hmax]
  · intro i hi
    obtain ⟨tl, htl⟩ : ∃ tl, w'.tlIDs.get? i = some tl := ⟨_, List.get?_eq_get hi⟩
    have hmax : Nat.max (w'.controlledLanes tl).length (maxLanesOf w) = maxLanesOf w :=
      Nat.max_eq_right (hl' tl (List.get?_mem htl))
    rw [get_state_obs_length (latchedEnv w) w' (maxLanesOf w) s' rfl rfl hs' i tl htl, hmax]

/-- C1 (witness): the amended theorem applied to the duplicate-free snapshot
`W2`, where `max_lanes = 2` and both observations have length `2*2 + 2 = 6`. -/
theorem C1_obs_length_witness :
    TrafficEnv.init.reset W2 = some (latchedEnv W2, [[3, 1, 0, 0, 1, 0], [3, 1, 3, 1, 0, 1]]) ∧
    (latchedEnv W2).get_state W2 = some [[3, 1, 0, 0, 1, 0], [3, 1, 3, 1, 0, 1]] ∧
    (∀ tl ∈ W2.tlIDs, (W2.controlledLanes tl).length ≤ maxLanesOf W2) ∧
    ((∀ i, i < W2.tlIDs.length →
        (([[3, 1, 0, 0, 1, 0], [3, 1, 3, 1, 0, 1]] : List (List Int)).get? i).map List.length =
          some (2 * maxLanesOf W2 + 2)) ∧
     (∀ i, i < W2.tlIDs.length →
        (([[3, 1, 0, 0, 1, 0], [3, 1, 3, 1, 0, 1]] : List (List Int)).get? i).map List.length =
          some (2 * maxLanesOf W2 + 2))) := by
  have h1 : TrafficEnv.init.reset W2 =
      some (latchedEnv W2, [[3, 1, 0, 0, 1, 0], [3, 1, 3, 1, 0, 1]]) := by decide
  have h2 : (latchedEnv W2).get_state W2 =
      some [[3, 1, 0, 0, 1, 0], [3, 1, 3, 1, 0, 1]] := by decide
  have h3 : ∀ tl ∈ W2.tlIDs, (W2.controlledLanes tl).length ≤ maxLanesOf W2 := by decide
  exact ⟨h1, h2, h3, C1_obs_length_uniform W2 W2 (latchedEnv W2) _ _ h1 h2 h3 h3⟩

/-- C2: the generated signal program has 8 phases whose first four form
direction 0's cycle (through, protected left, yellow, all-red) and whose
last four form direction 1's, but the code's phase-to-direction function
sends phases 2 and 3 — the East-West cycle's yellow and all-red sub-phases —
to direction 1, so the claimed mapping (0-3 to direction A, 4-7 to
direction B) does not hold of the code. -/
theorem C2_phase_direction_code_bug :
    gen0611Phases.length = 8 ∧
    gen0611PhaseDirection 2 = 0 ∧ gen0611PhaseDirection 3 = 0 ∧
    phaseToDirection 2 = 1 ∧ phaseToDirection 3 = 1 ∧
    ¬ (∀ p, p < gen0611Phases.length → phaseToDirection p = gen0611PhaseDirection p) := by
  decide

/-- C9: after `reset`, the latched `max_lanes` is the maximum cardinality of
the deduplicated controlled-lane sets, while each observation holds one
(vehicle, halted) pair per occurrence in the raw controlled-lanes list,
padded up to `max_lanes` pairs: the pair count is
`max(raw list length, max_lanes)` and the observation length is twice that
plus 2. -/
theorem C9_pair_count (w : World) (env' : TrafficEnv) (s : List (List Int))
    (h : TrafficEnv.init.reset w = some (env', s)) :
    env'.max_lanes = some (maxLanesOf w) ∧
    maxLanesOf w =
      (w.tlIDs.map (fun tl => (w.controlledLanes tl).toFinset.card)).foldl Nat.max 0 ∧
    ∀ i tl, w.tlIDs.get? i = some tl →
      (s.get? i).map List.length =
        some (2 * Nat.max (w.controlledLanes tl).length (maxLanesOf w) + 2) := by
  obtain ⟨henv, hs⟩ := init_reset_some w env' s h
  subst henv
  refine ⟨rfl, ?_, ?_⟩
  · simp [maxLanesOf, List.card_toFinset]
  · intro i tl hi
    exact get_state_obs_length (latchedEnv w) w (maxLanesOf w) s rfl rfl hs i tl hi

/-- C9 (witness): the theorem applied to snapshot `W1`, whose first
intersection lists a lane twice: `max_lanes = 1` yet its observation has
`max(2, 1) = 2` pairs (length 6), while the second has `max(1, 1) = 1` pair
(length 4). -/
theorem C9_pair_count_witness :
    TrafficEnv.init.reset W1 = some (latchedEnv W1, [[0, 0, 0, 0, 1, 0], [0, 0, 1, 0]]) ∧
    ((latchedEnv W1).max_lanes = some (maxLanesOf W1) ∧
     maxLanesOf W1 =
       (W1.tlIDs.map (fun tl => (W1.controlledLanes tl).toFinset.card)).foldl Nat.max 0 ∧
     ∀ i tl, W1.tlIDs.get? i = some tl →
       (([[0, 0, 0, 0, 1, 0], [0, 0, 1, 0]] : List (List Int)).get? i).map List.length =
         some (2 * Nat.max (W1.controlledLanes tl).length (maxLanesOf W1) + 2)) := by
  have h1 : TrafficEnv.init.reset W1 =
      some (latchedEnv W1, [[0, 0, 0, 0, 1, 0], [0, 0, 1, 0]]) := by decide
  exact ⟨h1, C9_pair_count W1 (latchedEnv W1) _ h1⟩

/-- C3: on a post-reset environment (`phase_mapping = [0, 2]`), for a joint
action of the right length with every value in the legal domain {0, 1},
`apply_action` issues exactly one `setPhase` instruction — to the requested
direction's entry phase `phase_mapping[a]` — for each intersection whose
requested direction differs from the direction derived from its current
phase, and no instruction for an intersection whose requested direction
equals the current one. -/
theorem C3_transition_rule (env : TrafficEnv) (n : Nat) (w : World) (actions : List Int)
    (hn : env.n_intersections = some n)
    (hpm : env.phase_mapping = some [0, 2])
    (hw : w.tlIDs.length = n) (hlen : actions.length = n)
    (hdom : ∀ a ∈ actions, a = 0 ∨ a = 1) :
    env.apply_action w actions = Except.ok (applySpec w actions) := by
  have hact : ∀ j, j < w.tlIDs.length →
      ∃ a, actions.get? (0 + j) = some a ∧ (a = 0 ∨ a = 1) := by
    intro j hj
    have hj' : j < actions.length := by omega
    refine ⟨actions.get ⟨j, hj'⟩, ?_, hdom _ (actions.get_mem j hj')⟩
    rw [Nat.zero_add]
    exact List.get?_eq_get hj'
  have hbeq : (actions.length == n) = true := by simp [hlen]
  simp only [TrafficEnv.apply_action, hn, hpm, hbeq, if_true]
  exact applyLoop_ok w actions w.tlIDs 0 hact

/-- C3 (witness): on snapshot `W2` (intersection `A` in phase 0 → direction
0, intersection `B` in phase 4 → direction 1) the joint action `[1, 1]`
produces exactly one instruction, `setPhase(A, 2)`, and none for `B`. -/
theorem C3_transition_rule_witness :
    envW2.n_intersections = some 2 ∧ envW2.phase_mapping = some [0, 2] ∧
    W2.tlIDs.length = 2 ∧ ([1, 1] : List Int).length = 2 ∧
    (∀ a ∈ ([1, 1] : List Int), a = 0 ∨ a = 1) ∧
    applySpec W2 [1, 1] = [("A", 2)] ∧
    envW2.apply_action W2 [1, 1] = Except.ok (applySpec W2 [1, 1]) := by
  have hdom : ∀ a ∈ ([1, 1] : List Int), a = 0 ∨ a = 1 := by decide
  exact ⟨rfl, rfl, rfl, rfl, hdom, by decide,
    C3_transition_rule envW2 2 W2 [1, 1] rfl rfl rfl rfl hdom⟩

/-- C4 (counterexample): the claim that any action value outside {0, 1}
makes `step` fail is false for the value -1: Python's negative indexing
into `phase_mapping = [0, 2]` silently yields entry phase 2, so on the
one-intersection snapshot `W3` (phase 0, so current direction 0 ≠ -1) the
call succeeds and even issues `setPhase(A, 2)`. -/
theorem C4_invalid_action_cex :
    TrafficEnv.init.reset W3 = some (envW3, [[3, 1, 1, 0]]) ∧
    envW3.apply_action W3 [-1] = Except.ok [("A", 2)] ∧
    envW3.step W3 W3 [-1] =
      Except.ok ({ envW3 with time := some 10 }, [[3, 1, 1, 0]], [-1], false) :=
  ⟨by decide, rfl, rfl⟩

/-- C4 (amended): an integer action outside the Python index range of the
two-element `phase_mapping` — that is, a value ≥ 2 or ≤ -3 — makes
`apply_action`, and hence `step`, fail with an `IndexError`; the values -1
and -2 are accepted without error through Python's negative indexing. -/
theorem C4_invalid_action_amended (env : TrafficEnv) (n : Nat) (w w' : World)
    (actions : List Int)
    (hn : env.n_intersections = some n) (hpm : env.phase_mapping = some [0, 2])
    (hw : w.tlIDs.length = n) (hlen : actions.length = n)
    (hbad : ∃ a ∈ actions, 2 ≤ a ∨ a ≤ -3) :
    env.apply_action w actions = Except.error PyError.indexError ∧
    env.step w w' actions = Except.error PyError.indexError := by
  have hall : ∀ j, j < w.tlIDs.length → ∃ a, actions.get? (0 + j) = some a := by
    intro j hj
    have hj' : j < actions.length := by omega
    exact ⟨actions.get ⟨j, hj'⟩, by rw [Nat.zero_add]; exact List.get?_eq_get hj'⟩
  have hbadi : ∃ j, j < w.tlIDs.length ∧
      ∃ a, actions.get? (0 + j) = some a ∧ pyIndex ([0, 2] : List Nat) a = none := by
    obtain ⟨a, hmem, hout⟩ := hbad
    obtain ⟨j, hj⟩ := List.mem_iff_get?.mp hmem
    have hjlt : j < actions.length := by
      obtain ⟨hlt, -⟩ := List.get?_eq_some.mp hj
      omega
    exact ⟨j, by omega, a, by rw [Nat.zero_add]; exact hj, pyIndex_pair_none 0 2 a hout⟩
  have h1 : env.apply_action w actions = Except.error PyError.indexError := by
    have hbeq : (actions.length == n) = true := by simp [hlen]
    simp only [TrafficEnv.apply_action, hn, hpm, hbeq, if_true]
    exact applyLoop_err w actions w.tlIDs 0 hall hbadi
  refine ⟨h1, ?_⟩
  unfold TrafficEnv.step
  rw [h1]

/-- C4 (witness): the amended theorem at the concrete out-of-range action
`[2]` on the one-intersection snapshot `W3`: the call fails with an
`IndexError`. -/
theorem C4_invalid_action_witness :
    envW3.n_intersections = some 1 ∧ envW3.phase_mapping = some [0, 2] ∧
    W3.tlIDs.length = 1 ∧ ([2] : List Int).length = 1 ∧
    (∃ a ∈ ([2] : List Int), 2 ≤ a ∨ a ≤ -3) ∧
    (envW3.apply_action W3 [2] = Except.error PyError.indexError ∧
     envW3.step W3 W3 [2] = Except.error PyError.indexError) := by
  have hbad : ∃ a ∈ ([2] : List Int), 2 ≤ a ∨ a ≤ -3 := by decide
  exact ⟨rfl, rfl, rfl, rfl, hbad,
    C4_invalid_action_amended envW3 1 W3 W3 [2] rfl rfl rfl rfl hbad⟩

/-- C6: a joint action whose length differs from the latched intersection
count makes `apply_action`, and hence `step`, fail with the length-check
`ValueError` — it is never padded or truncated, since no instruction list is
produced at all. -/
theorem C6_shape_mismatch (env : TrafficEnv) (n : Nat) (w w' : World) (actions : List Int)
    (hn : env.n_intersections = some n) (hlen : actions.length ≠ n) :
    env.apply_action w actions = Except.error PyError.valueError ∧
    env.step w w' actions = Except.error PyError.valueError := by
  have h1 : env.apply_action w actions = Except.error PyError.valueError := by
    have hbeq : (actions.length == n) = false := by simp [hlen]
    simp [TrafficEnv.apply_action, hn, hbeq]
  refine ⟨h1, ?_⟩
  unfold TrafficEnv.step
  rw [h1]

/-- C6 (witness): on the two-intersection environment latched from `W2`, the
length-1 action `[0]` fails with the `ValueError`. -/
theorem C6_shape_mismatch_witness :
    envW2.n_intersections = some 2 ∧ ([0] : List Int).length ≠ 2 ∧
    (envW2.apply_action W2 [0] = Except.error PyError.valueError ∧
     envW2.step W2 W2 [0] = Except.error PyError.valueError) := by
  have hlen : ([0] : List Int).length ≠ 2 := by decide
  exact ⟨rfl, hlen, C6_shape_mismatch envW2 2 W2 W2 [0] rfl hlen⟩

/-- C7 (counterexample): the claim that operations before `reset` fail with
a NotInitialized error is wrong about the error's identity: on the
freshly-constructed environment `step` fails with the length-check
`ValueError` (because `len(actions) != None` is true in Python) and
`get_reward` fails with a `TypeError` (from `range(None)`); neither is a
dedicated NotInitialized error. -/
theorem C7_not_initialized_cex :
    TrafficEnv.init.step W3 W3 [0] = Except.error PyError.valueError ∧
    TrafficEnv.init.get_reward W3 = Except.error PyError.typeError ∧
    PyError.valueError ≠ PyError.notInitialized ∧
    PyError.typeError ≠ PyError.notInitialized :=
  ⟨rfl, rfl, by decide, by decide⟩

/-- C7 (amended): every operation before `reset` does fail — `step` always
with the length-check `ValueError`, `get_reward` always with a `TypeError`,
and `get_state` produces no state — but through the `None`-valued latched
fields, not through a dedicated NotInitialized error. -/
theorem C7_not_initialized_amended :
    (∀ (w w' : World) (actions : List Int),
      TrafficEnv.init.step w w' actions = Except.error PyError.valueError) ∧
    (∀ w : World, TrafficEnv.init.get_reward w = Except.error PyError.typeError) ∧
    (∀ w : World, TrafficEnv.init.get_state w = none) :=
  ⟨fun _ _ _ => rfl, fun _ => rfl, fun _ => rfl⟩

/-- C5: on a post-reset environment, intersection `i`'s reward is the
negative of the sum of halting counts over its raw controlled-lanes list,
and when the halting counts grow (pointwise no smaller on its lanes,
strictly larger on at least one) while everything else stays equal, the
intersection's reward strictly decreases. -/
theorem C5_reward_neg_sum (env : TrafficEnv) (n : Nat) (w w' : World) (i : Nat) (tl : String)
    (hn : env.n_intersections = some n) (hw : w.tlIDs.length = n)
    (ht : w'.tlIDs = w.tlIDs) (hc : w'.controlledLanes = w.controlledLanes)
    (hi : w.tlIDs.get? i = some tl)
    (hmono : ∀ l ∈ w.controlledLanes tl, w.haltingNumber l ≤ w'.haltingNumber l)
    (hstrict : ∃ l ∈ w.controlledLanes tl, w.haltingNumber l < w'.haltingNumber l) :
    rewardAt env w i =
      some (-(((w.controlledLanes tl).map (fun l => (w.haltingNumber l : Int))).sum)) ∧
    rewardAt env w' i =
      some (-(((w.controlledLanes tl).map (fun l => (w'.haltingNumber l : Int))).sum)) ∧
    -(((w.controlledLanes tl).map (fun l => (w'.haltingNumber l : Int))).sum) <
      -(((w.controlledLanes tl).map (fun l => (w.haltingNumber l : Int))).sum) := by
  refine ⟨rewardAt_eq env n w i tl hn (le_of_eq hw) hi, ?_, ?_⟩
  · have h := rewardAt_eq env n w' i tl hn (by rw [ht]; omega) (by rw [ht]; exact hi)
    rw [hc] at h
    exact h
  · have h := mapsum_lt w.haltingNumber w'.haltingNumber (w.controlledLanes tl) hmono hstrict
    omega

/-- C5 (witness): between snapshots `W3` (1 halted vehicle on lane `l0`) and
`W4` (2 halted vehicles, everything else equal), intersection `A`'s reward
drops from -1 to -2. -/
theorem C5_reward_neg_sum_witness :
    envW3.n_intersections = some 1 ∧ W3.tlIDs.length = 1 ∧
    W4.tlIDs = W3.tlIDs ∧ W4.controlledLanes = W3.controlledLanes ∧
    W3.tlIDs.get? 0 = some "A" ∧
    (∀ l ∈ W3.controlledLanes "A", W3.haltingNumber l ≤ W4.haltingNumber l) ∧
    (∃ l ∈ W3.controlledLanes "A", W3.haltingNumber l < W4.haltingNumber l) ∧
    (rewardAt envW3 W3 0 =
       some (-(((W3.controlledLanes "A").map (fun l => (W3.haltingNumber l : Int))).sum)) ∧
     rewardAt envW3 W4 0 =
       some (-(((W3.controlledLanes "A").map (fun l => (W4.haltingNumber l : Int))).sum)) ∧
     -(((W3.controlledLanes "A").map (fun l => (W4.haltingNumber l : Int))).sum) <
       -(((W3.controlledLanes "A").map (fun l => (W3.haltingNumber l : Int))).sum)) := by
  have h1 : W4.tlIDs = W3.tlIDs := rfl
  have h2 : W4.controlledLanes = W3.controlledLanes := rfl
  have h3 : W3.tlIDs.get? 0 = some "A" := rfl
  have h4 : ∀ l ∈ W3.controlledLanes "A", W3.haltingNumber l ≤ W4.haltingNumber l := by decide
  have h5 : ∃ l ∈ W3.controlledLanes "A", W3.haltingNumber l < W4.haltingNumber l := by decide
  exact ⟨rfl, rfl, h1, h2, h3, h4, h5,
    C5_reward_neg_sum envW3 1 W3 W4 0 "A" rfl rfl h1 h2 h3 h4 h5⟩

/-- C8 (counterexample): with the configured budget `max_step_per_ep = 360`
and an environment whose `done` flag never becomes true, the episode loop
performs 361 `env.step` calls — one more than the budget — because its guard
`step_count <= max_step_per_ep` still admits the iteration entered at
`step_count = 360`. -/
theorem C8_step_budget_cex :
    episodeStepCalls max_step_per_ep (fun _ => false) = max_step_per_ep + 1 ∧
    ¬ (max_step_per_ep + 1 ≤ max_step_per_ep) :=
  ⟨loopAux_false (max_step_per_ep + 1) 0, by decide⟩

/-- C8 (amended): the episode loop always terminates after at most
`max_step_per_ep + 1` calls to `env.step`, performing exactly
`max_step_per_ep + 1` when `done` never becomes true; exhausting the budget
ends the episode normally (the loop model is a total function — no error is
raised). -/
theorem C8_step_budget_amended :
    (∀ (maxStep : Nat) (doneSeq : Nat → Bool),
      episodeStepCalls maxStep doneSeq ≤ maxStep + 1) ∧
    (∀ maxStep : Nat, episodeStepCalls maxStep (fun _ => false) = maxStep + 1) :=
  ⟨fun m d => loopAux_le d (m + 1) 0 false, fun m => loopAux_false (m + 1) 0⟩

/-- C10: when every child node of the tripinfo root carries a `duration`
attribute, `get_average_travel_time` returns the arithmetic mean of those
durations over all trip entries, and on a file with zero trip entries it
returns the NaN marker (`none`) — the function is total, so no exception is
raised. -/
theorem C10_average_travel_time (durations : List ℚ) (hne : durations ≠ []) :
    get_average_travel_time (durations.map some) =
      some (durations.sum / (durations.length : ℚ)) ∧
    get_average_travel_time [] = none := by
  refine ⟨?_, rfl⟩
  have hfm : (durations.map some).filterMap id = durations := by simp
  have hlen : ¬ (durations.length = 0) := by
    simpa [List.length_eq_zero] using hne
  simp only [get_average_travel_time, hfm, hlen, if_false, foldl_add_eq, zero_add]

/-- C10 (witness): the theorem applied to the three-trip file with durations
1, 2 and 3. -/
theorem C10_average_travel_time_witness :
    ([(1 : ℚ), 2, 3] ≠ []) ∧
    (get_average_travel_time (([(1 : ℚ), 2, 3]).map some) =
       some (([(1 : ℚ), 2, 3]).sum / (([(1 : ℚ), 2, 3]).length : ℚ)) ∧
     get_average_travel_time [] = none) := by
  have hne : ([(1 : ℚ), 2, 3]) ≠ ([] : List ℚ) := by simp
  exact ⟨hne, C10_average_travel_time [1, 2, 3] hne⟩
